import Mathlib

/-!
# Verification of the `saws` multi-account command executor

Shallow embedding of the command-execution engine of the `saws` tool
(current code generation: `cmd` main = `src/unnamed/part_002`,
`internal/app/saws.ProcessAccountRegion` and `internal/pkg.AssumeRole` =
`src/internal/pkg/config.go`).

External collaborators (the Go standard library string functions, the STS
client, `os.Environ`, `filepath.Match`, subprocess execution) are embedded
as executable Lean functions with the same semantics, or passed in as
oracle parameters where the code merely consumes their result:
* `filepath.Match` appears as a `matchFn : String → String → Bool`
  parameter (the code's skip-on-`ErrBadPattern` makes a malformed pattern
  behave as a non-match, which the `Bool` result absorbs);
* the STS `AssumeRole` call result and the subprocess outcome are fields
  of the per-unit context `UnitCtx`.

Go strings are byte strings; we model them as Lean `String`s and compare
them by their character lists, which for valid UTF-8 agrees with Go's
bytewise comparison.
-/

namespace Saws

/-- Decidable equality for `Except`, so concrete runs of the fallible
pipeline stages can be checked by `decide`. -/
instance {ε α : Type _} [DecidableEq ε] [DecidableEq α] : DecidableEq (Except ε α)
  | .error e, .error f => decidable_of_iff (e = f) (by simp)
  | .error _, .ok _ => .isFalse (by simp)
  | .ok _, .error _ => .isFalse (by simp)
  | .ok v, .ok w => decidable_of_iff (v = w) (by simp)

/-- ASCII whitespace accepted by Go's `unicode.IsSpace` (the subset relevant
to flag values: space, tab, newline, carriage return, vertical tab, form feed). -/
def isSpaceGo (c : Char) : Bool :=
  c = ' ' || c = '\t' || c = '\n' || c = '\r' || c = '\x0b' || c = '\x0c'

/-- Split a character list at every character satisfying `p`, keeping empty
chunks — the splitting core of Go's `strings.Split` for one-character
separators (with `p` testing equality with the separator). -/
def splitOnP (p : Char → Bool) : List Char → List (List Char)
  | [] => [[]]
  | x :: xs =>
    match splitOnP p xs with
    | [] => [[]]
    | y :: ys => if p x then [] :: y :: ys else (x :: y) :: ys

/-- Go `strings.TrimSpace`: drop leading and trailing whitespace. -/
def trimChars (s : List Char) : List Char :=
  ((s.dropWhile isSpaceGo).reverse.dropWhile isSpaceGo).reverse

/-- Go `strings.TrimSpace` on `String`. -/
def goTrim (s : String) : String := ⟨trimChars s.data⟩

/-- Go `strings.Split(s, ",")`. -/
def goSplitComma (s : String) : List String :=
  (splitOnP (· = ',') s.data).map String.mk

/-- Go `strings.Fields` (split on whitespace runs, no empty fields) —
the selector splitter of the legacy root `saws.go` only. -/
def goFields (s : String) : List String :=
  ((splitOnP isSpaceGo s.data).map String.mk).filter (fun f => f ≠ "")

/-- Go `strings.HasPrefix`. -/
def goHasPrefix (s pre : String) : Bool := pre.data.isPrefixOf s.data

/-- Go string slicing `s[:n]` (modelled on characters). -/
def strTake (n : Nat) (s : String) : String := ⟨s.data.take n⟩

/-- Go `len(s)` (modelled on characters). -/
def strLen (s : String) : Nat := s.data.length

/-- Go `strings.ReplaceAll` for a one-character pattern and replacement. -/
def replaceChar (old new : Char) (s : String) : String :=
  ⟨s.data.map (fun c => if c = old then new else c)⟩

/-- Go's bytewise string order `a <= b`, modelled as the lexicographic order
on the character lists (identical for valid UTF-8). -/
def strLeData (a b : String) : Prop := a.data ≤ b.data

instance : DecidableRel strLeData :=
  fun a b => inferInstanceAs (Decidable (a.data ≤ b.data))

instance : IsTotal String strLeData := ⟨fun a b => le_total a.data b.data⟩

instance : IsTrans String strLeData := ⟨fun _ _ _ h h' => le_trans h h'⟩

/-- Go `sort.Strings` (any correct sort of strings is extensionally the
same function, duplicates being indistinguishable). -/
def sortStrings (l : List String) : List String := l.insertionSort strLeData

/-- `pkg.FallbackRegion` (`internal/pkg/config.go`). -/
def fallbackRegion : String := "eu-west-1"

/-- Command-mode selector splitting (`main`, `src/unnamed/part_002` lines
310–317): `strings.Split(*selector, ",")`, trim each piece, keep non-empty. -/
def splitSelector (selector : String) : List String :=
  ((goSplitComma selector).map goTrim).filter (fun p => p ≠ "")

/-- One account matches when some selector pattern matches it — the inner
`for pattern ... { if match { ...; break } }` loop of `main`
(`src/unnamed/part_002` lines 325–335); `matchFn` stands for
`filepath.Match`, `false` covering both non-match and `ErrBadPattern`
(which the code skips with `continue`). -/
def matchesAny (matchFn : String → String → Bool) (patterns : List String)
    (accName : String) : Bool :=
  patterns.any (fun pattern => matchFn pattern accName)

/-- Selector resolution against sorted account names (`main`,
`src/unnamed/part_002` lines 322–340): matched names are accumulated in a
Go map (set semantics: duplicates collapse), extracted, and sorted with
`sort.Strings`. -/
def resolveAccounts (matchFn : String → String → Bool) (patterns : List String)
    (accountNamesSorted : List String) : List String :=
  sortStrings ((accountNamesSorted.filter (matchesAny matchFn patterns)).dedup)

/-- Target-account selection for command mode (`main`, `src/unnamed/part_002`
lines 300–346). `accountNames` are the keys of `appConfig.Accounts`.
An `Except.error` is an `os.Exit(1)` reached before any unit is spawned. -/
def selectTargetAccounts (matchFn : String → String → Bool) (processAll : Bool)
    (selector : String) (accountNames : List String) : Except String (List String) :=
  let allAccountNamesSorted := sortStrings accountNames
  if processAll then .ok allAccountNamesSorted
  else
    let selectorPatterns := splitSelector selector
    if selectorPatterns = [] then
      .error "Error: Selector flag -s provided no valid names/patterns."
    else
      let targetAccountNames := resolveAccounts matchFn selectorPatterns allAccountNamesSorted
      if targetAccountNames = [] then
        .error "Error: No accounts found matching selector patterns."
      else .ok targetAccountNames

/-- Valid explicit regions: split the (already trimmed) `-regions` value on
commas, trim each, drop empties (`main`, `src/unnamed/part_002` lines 273–279). -/
def validRegionsOf (regionsInput : String) : List String :=
  ((goSplitComma regionsInput).map goTrim).filter (fun r => r ≠ "")

/-- Command-mode region resolution (`main`, `src/unnamed/part_002` lines
270–298). `ambient` models `awsconfig.LoadDefaultConfig`: `none` for a load
error, `some r` for a loaded config whose `Region` field is `r` (possibly
empty — the code treats both like the error case, falling back). -/
def resolveRegions (regionsStr : String) (ambient : Option String) :
    Except String (List String) :=
  let regionsInput := goTrim regionsStr
  if regionsInput ≠ "" then
    let targetRegionsCmd := validRegionsOf regionsInput
    if targetRegionsCmd = [] then
      .error "Error: -regions flag provided but contained no valid region names after trimming."
    else .ok targetRegionsCmd
  else
    match ambient with
    | none => .ok [fallbackRegion]
    | some r => if r = "" then .ok [fallbackRegion] else .ok [r]

/-- The fan-out double loop (`main`, `src/unnamed/part_002` lines 360–367):
one goroutine per (account, region), accounts outer, regions inner. -/
def spawnPairs (targetAccountNames targetRegionsCmd : List String) :
    List (String × String) :=
  targetAccountNames.flatMap (fun accountName =>
    targetRegionsCmd.map (fun region => (accountName, region)))

/-- Command-execution-mode pipeline up to the spawn plan (`main`,
`src/unnamed/part_002` lines 245–367): flag validation, region resolution,
account selection, then the cross-product plan. An `Except.error` is a
`usage()`/`os.Exit(1)` termination before any Execution Unit is spawned;
the `exec.LookPath("aws")` probe is an external check elided here. -/
def commandModePlan (matchFn : String → String → Bool) (role selector : String)
    (processAll : Bool) (regionsStr : String) (ambient : Option String)
    (accountNames : List String) : Except String (List (String × String)) :=
  if role = "" then
    .error "Error: Role (-r) is mandatory for Command Execution Mode."
  else if processAll ∧ selector ≠ "" then
    .error "Error: Cannot use both -a and -s in Command Mode."
  else if ¬processAll ∧ selector = "" then
    .error "Error: Must use -a or -s in Command Mode."
  else
    match resolveRegions regionsStr ambient with
    | .error e => .error e
    | .ok targetRegionsCmd =>
      match selectTargetAccounts matchFn processAll selector accountNames with
      | .error e => .error e
      | .ok targetAccountNames => .ok (spawnPairs targetAccountNames targetRegionsCmd)

/-- Temporary credentials returned by `pkg.AssumeRole` (the code dereferences
exactly these three fields when building the subprocess environment). -/
structure Creds where
  accessKeyId : String
  secretAccessKey : String
  sessionToken : String
  deriving DecidableEq, Repr

/-- The environment-variable filter of `ProcessAccountRegion`
(`src/internal/pkg/config.go` lines 437–449): keep an entry iff it carries
none of the nine stripped prefixes. -/
def keepEnvVar (envVar : String) : Bool :=
  !goHasPrefix envVar "AWS_PROFILE=" &&
  !goHasPrefix envVar "AWS_ACCESS_KEY_ID=" &&
  !goHasPrefix envVar "AWS_SECRET_ACCESS_KEY=" &&
  !goHasPrefix envVar "AWS_SESSION_TOKEN=" &&
  !goHasPrefix envVar "AWS_SECURITY_TOKEN=" &&
  !goHasPrefix envVar "AWS_REGION=" &&
  !goHasPrefix envVar "AWS_DEFAULT_REGION=" &&
  !goHasPrefix envVar "AWS_CONFIG_FILE=" &&
  !goHasPrefix envVar "AWS_SHARED_CREDENTIALS_FILE="

/-- The five entries `ProcessAccountRegion` appends to the cleaned
environment (`src/internal/pkg/config.go` lines 450–455): the unit's own
temporary credentials and its target region (as both region variables). -/
def injectedEnv (creds : Creds) (region : String) : List String :=
  [ "AWS_ACCESS_KEY_ID=" ++ creds.accessKeyId,
    "AWS_SECRET_ACCESS_KEY=" ++ creds.secretAccessKey,
    "AWS_SESSION_TOKEN=" ++ creds.sessionToken,
    "AWS_REGION=" ++ region,
    "AWS_DEFAULT_REGION=" ++ region ]

/-- Subprocess environment construction of `ProcessAccountRegion`
(`src/internal/pkg/config.go` lines 435–455): filter the parent environment
with `keepEnvVar`, then append the unit's five injected entries. -/
def buildEnv (originalEnv : List String) (creds : Creds) (region : String) :
    List String :=
  originalEnv.filter keepEnvVar ++ injectedEnv creds region

/-- Outcome of `cmd.Run()` for the unit's subprocess: `ok` (exit status 0,
`err == nil`), `exitErr code` (an `*exec.ExitError`), or `startErr`
(any other error: the subprocess could not be spawned/run). -/
inductive RunOutcome where
  | ok
  | exitErr (code : Int)
  | startErr (msg : String)
  deriving DecidableEq, Repr

/-- `exitCode` derivation (`src/internal/pkg/config.go` lines 465–475):
0 on success, the subprocess's own code on `*exec.ExitError`,
the sentinel −1 otherwise. -/
def exitCodeOf : RunOutcome → Int
  | .ok => 0
  | .exitErr code => code
  | .startErr _ => -1

/-- `status` derivation (`src/internal/pkg/config.go` lines 466–468):
`SUCCESS` iff `cmd.Run()` returned no error. -/
def statusOf : RunOutcome → String
  | .ok => "SUCCESS"
  | .exitErr _ => "FAILED"
  | .startErr _ => "FAILED"

/-- The stderr section label (`src/internal/pkg/config.go` lines 485–491):
marked specially when the unit nonetheless exited 0. -/
def stderrLabel (exitCode : Int) : String :=
  if exitCode ≠ 0 then "[STDERR]" else "[STDERR (Exit Code 0)]"

/-- The header line of the per-unit printed block
(`src/internal/pkg/config.go` lines 477–478): account, region, status,
exit code, duration. -/
def resultHeader (accountName region status : String) (exitCode : Int)
    (durationStr : String) : String :=
  "--- Result (Account: " ++ accountName ++ ", Region: " ++ region ++
    ", Status: " ++ status ++ ", Exit Code: " ++ toString exitCode ++
    ", Duration: " ++ durationStr ++ ") ---"

/-- The per-unit printed block (`src/internal/pkg/config.go` lines 477–493),
one list entry per printed line: the header, a `[STDOUT]` section only when
the trimmed captured stdout is non-empty, a labelled stderr section only
when the trimmed captured stderr is non-empty, and a closing line. -/
def renderResultBlock (accountName region status : String) (exitCode : Int)
    (durationStr stdoutCaptured stderrCaptured : String) : List String :=
  let stdOutput := goTrim stdoutCaptured
  let errOutput := goTrim stderrCaptured
  [resultHeader accountName region status exitCode durationStr]
  ++ (if stdOutput ≠ "" then ["[STDOUT]", stdOutput] else [])
  ++ (if errOutput ≠ "" then [stderrLabel exitCode, errOutput] else [])
  ++ ["--- End Result ---"]

/-- `exec.CommandContext(ctx, "bash", "-c", commandToRun)`
(`src/internal/pkg/config.go` line 433): the subprocess is the shell
interpreter with the literal command string as its `-c` argument. -/
def shellInvocation (commandToRun : String) : String × List String :=
  ("bash", ["-c", commandToRun])

/-- Everything one worker invocation of `ProcessAccountRegion` reads:
its Execution Unit (account, role, command, region) plus the oracles for
the external effects it consumes — the registry lookup, the `pkg.AssumeRole`
result, the parent environment, and the subprocess outcome with its two
captured buffers and measured duration. -/
structure UnitCtx where
  accountName : String
  region : String
  roleToAssume : String
  commandToRun : String
  lookup : Option String
  assume : Except String Creds
  originalEnv : List String
  run : RunOutcome
  stdoutCaptured : String
  stderrCaptured : String
  durationStr : String
  deriving Repr

/-- The record one worker leaves behind: the early-return log line of the
account-lookup or assume-role failure paths, or the full printed result
block of an executed subprocess (with the shell invocation and environment
it was started with). -/
inductive UnitResult where
  | accountNotFound (accountName : String)
  | assumeFailed (accountName region roleToAssume errMsg : String)
  | executed (accountName region status : String) (exitCode : Int)
      (invocation : String × List String) (env : List String)
      (block : List String)
  deriving DecidableEq, Repr

/-- One worker of the concurrent executor
(`saws.ProcessAccountRegion`, `src/internal/pkg/config.go` lines 408–498):
registry lookup, role assumption, environment construction, subprocess run,
result block, and the unit's contribution to the atomic success counter
(1 iff the exit code is 0). -/
def processAccountRegion (u : UnitCtx) : UnitResult × Nat :=
  match u.lookup with
  | none => (.accountNotFound u.accountName, 0)
  | some _accountID =>
    match u.assume with
    | .error errMsg => (.assumeFailed u.accountName u.region u.roleToAssume errMsg, 0)
    | .ok creds =>
      let exitCode := exitCodeOf u.run
      let status := statusOf u.run
      (.executed u.accountName u.region status exitCode
        (shellInvocation u.commandToRun)
        (buildEnv u.originalEnv creds u.region)
        (renderResultBlock u.accountName u.region status exitCode
          u.durationStr u.stdoutCaptured u.stderrCaptured),
       if exitCode = 0 then 1 else 0)

/-- Final verdict (`main`, `src/unnamed/part_002` lines 371–379): exit code
and summary line from the planned total and the loaded success counter. -/
def finalVerdict (totalExecutions : Nat) (finalSuccessCount : Int) : Nat × String :=
  if finalSuccessCount = (totalExecutions : Int) then
    (0, "Cmd Mode: All " ++ toString finalSuccessCount ++
      " executions completed successfully.")
  else
    (1, "Cmd Mode: " ++ toString finalSuccessCount ++ " out of " ++
      toString totalExecutions ++
      " targeted executions completed successfully. " ++
      toString ((totalExecutions : Int) - finalSuccessCount) ++ " failed.")

/-- The value of the atomic success counter once every worker has finished:
the sum of all units' counter contributions. -/
def successTotal (units : List UnitCtx) : Nat :=
  ((units.map processAccountRegion).map (fun o => o.2)).sum

/-- The whole fan-out run (`main`, `src/unnamed/part_002` lines 354–379):
every planned unit runs (the `wg.Wait()` join barrier guarantees all have
finished), then the verdict is computed from the planned total and the
accumulated counter. -/
def runAll (units : List UnitCtx) : List UnitResult × (Nat × String) :=
  ((units.map processAccountRegion).map (fun o => o.1),
   finalVerdict units.length (successTotal units : Int))

/-- Role-name sanitisation of `pkg.AssumeRole`
(`src/internal/pkg/config.go` lines 150–154): `/` → `-`, space → `_`,
truncated to 30. -/
def safeRolePart (roleToAssume : String) : String :=
  let s := replaceChar ' ' '_' (replaceChar '/' '-' roleToAssume)
  if strLen s > 30 then strTake 30 s else s

/-- Role-session-name derivation of `pkg.AssumeRole`
(`src/internal/pkg/config.go` lines 156–159): join suffix, sanitised role
part and pid with `-`, truncate to 64. -/
def sessionName (sessionNameSuffix roleToAssume : String) (pid : Nat) : String :=
  let s := sessionNameSuffix ++ "-" ++ safeRolePart roleToAssume ++ "-" ++ Nat.repr pid
  if strLen s > 64 then strTake 64 s else s

/-- `filepath.Match` restricted to wildcard-free patterns, where it is exact
string equality — used to instantiate `matchFn` in concrete runs. -/
def literalMatch (pattern accName : String) : Bool := pattern == accName

/-! ## Helper lemmas -/

lemma strLen_strTake_le (n : Nat) (s : String) : strLen (strTake n s) ≤ n := by
  simp only [strLen, strTake, List.length_take]
  omega

lemma goHasPrefix_append_self (p v : String) : goHasPrefix (p ++ v) p = true := by
  unfold goHasPrefix
  rw [String.data_append]
  exact List.isPrefixOf_iff_prefix.mpr (List.prefix_append _ _)

/-- If neither of two variable names is a prefix of the other, an entry for
one never carries the other's prefix, whatever its value. -/
lemma goHasPrefix_append_of_ne (p q : String)
    (h1 : q.data.isPrefixOf p.data = false) (h2 : p.data.isPrefixOf q.data = false)
    (v : String) : goHasPrefix (p ++ v) q = false := by
  unfold goHasPrefix
  rw [String.data_append]
  apply Bool.eq_false_iff.mpr
  intro hc
  have hq : q.data <+: p.data ++ v.data := List.isPrefixOf_iff_prefix.mp hc
  have hp : p.data <+: p.data ++ v.data := List.prefix_append _ _
  rcases le_total q.data.length p.data.length with hle | hle
  · exact absurd (List.isPrefixOf_iff_prefix.mpr
      (List.prefix_of_prefix_length_le hq hp hle)) (by simp [h1])
  · exact absurd (List.isPrefixOf_iff_prefix.mpr
      (List.prefix_of_prefix_length_le hp hq hle)) (by simp [h2])

lemma keepEnvVar_eq_true_iff (e : String) : keepEnvVar e = true ↔
    (goHasPrefix e "AWS_PROFILE=" = false ∧
     goHasPrefix e "AWS_ACCESS_KEY_ID=" = false ∧
     goHasPrefix e "AWS_SECRET_ACCESS_KEY=" = false ∧
     goHasPrefix e "AWS_SESSION_TOKEN=" = false ∧
     goHasPrefix e "AWS_SECURITY_TOKEN=" = false ∧
     goHasPrefix e "AWS_REGION=" = false ∧
     goHasPrefix e "AWS_DEFAULT_REGION=" = false ∧
     goHasPrefix e "AWS_CONFIG_FILE=" = false ∧
     goHasPrefix e "AWS_SHARED_CREDENTIALS_FILE=" = false) := by
  simp [keepEnvVar, Bool.and_eq_true, Bool.not_eq_true', and_assoc]

lemma splitOnP_ne_nil (p : Char → Bool) (s : List Char) : splitOnP p s ≠ [] := by
  induction s with
  | nil => simp [splitOnP]
  | cons x xs ih =>
    unfold splitOnP
    rcases h : splitOnP p xs with _ | ⟨y, ys⟩
    · exact absurd h ih
    · dsimp only
      split <;> simp

/-- No chunk produced by `splitOnP` still contains a separator character. -/
lemma splitOnP_no_sep (p : Char → Bool) (s : List Char) :
    ∀ l ∈ splitOnP p s, ∀ c ∈ l, p c = false := by
  induction s with
  | nil =>
    intro l hl c hc
    simp [splitOnP] at hl
    subst hl
    simp at hc
  | cons x xs ih =>
    intro l hl c hc
    unfold splitOnP at hl
    rcases h : splitOnP p xs with _ | ⟨y, ys⟩
    · exact absurd h (splitOnP_ne_nil p xs)
    · rw [h] at hl
      by_cases hx : p x
      · simp [hx] at hl
        rcases hl with rfl | hl
        · simp at hc
        · exact ih l (by rw [h]; exact List.mem_cons.mpr hl) c hc
      · simp [hx] at hl
        rcases hl with rfl | hl
        · rcases List.mem_cons.mp hc with rfl | hc'
          · simpa using hx
          · exact ih y (by rw [h]; exact List.mem_cons_self y ys) c hc'
        · exact ih l (by rw [h]; exact List.mem_cons_of_mem y hl) c hc

lemma mem_trimChars (c : Char) (l : List Char) (h : c ∈ trimChars l) : c ∈ l := by
  unfold trimChars at h
  rw [List.mem_reverse] at h
  have h1 := List.dropWhile_sublist (l := (l.dropWhile isSpaceGo).reverse) (p := isSpaceGo)
  have h2 : c ∈ (l.dropWhile isSpaceGo).reverse := h1.subset h
  rw [List.mem_reverse] at h2
  exact (List.dropWhile_sublist (l := l) (p := isSpaceGo)).subset h2

/-- Every pattern produced by the command-mode selector splitter is
non-empty and comma-free. -/
lemma splitSelector_patterns (selector : String) :
    ∀ p ∈ splitSelector selector, p ≠ "" ∧ (',' ∈ p.data → False) := by
  intro p hp
  unfold splitSelector at hp
  have hne : p ≠ "" := by
    have := List.of_mem_filter hp
    simpa using this
  refine ⟨hne, ?_⟩
  intro hcomma
  have hp' := List.mem_of_mem_filter hp
  rcases List.mem_map.mp hp' with ⟨q, hq, rfl⟩
  rcases List.mem_map.mp (show q ∈ (splitOnP (· = ',') selector.data).map String.mk by
    simpa [goSplitComma] using hq) with ⟨l, hl, rfl⟩
  have : ',' ∈ l := mem_trimChars _ _ (by simpa [goTrim] using hcomma)
  have := splitOnP_no_sep (· = ',') selector.data l hl ',' this
  simp at this

lemma list_any_perm {α : Type _} {l₁ l₂ : List α} (h : l₁.Perm l₂) (g : α → Bool) :
    l₁.any g = l₂.any g := by
  apply Bool.eq_iff_iff.mpr
  simp only [List.any_eq_true]
  constructor
  · rintro ⟨x, hx, hgx⟩
    exact ⟨x, h.mem_iff.mp hx, hgx⟩
  · rintro ⟨x, hx, hgx⟩
    exact ⟨x, h.mem_iff.mpr hx, hgx⟩

/-- Selector resolution only depends on the *set* of patterns: permuting the
pattern list leaves the result unchanged. -/
lemma resolveAccounts_perm (matchFn : String → String → Bool)
    {patterns₁ patterns₂ : List String} (h : patterns₁.Perm patterns₂)
    (accountNames : List String) :
    resolveAccounts matchFn patterns₁ accountNames =
      resolveAccounts matchFn patterns₂ accountNames := by
  unfold resolveAccounts
  congr 1
  congr 1
  apply List.filter_congr
  intro acc _
  exact list_any_perm h _

lemma spawnPairs_eq_product (A R : List String) : spawnPairs A R = A ×ˢ R := rfl

lemma safeRolePart_sanitized (roleToAssume : String) :
    ∀ c ∈ (safeRolePart roleToAssume).data, c ≠ '/' ∧ c ≠ ' ' := by
  intro c hc
  have hc' : c ∈ (replaceChar ' ' '_' (replaceChar '/' '-' roleToAssume)).data := by
    unfold safeRolePart at hc
    dsimp only at hc
    split at hc
    · exact List.mem_of_mem_take (by simpa [strTake] using hc)
    · exact hc
  simp only [replaceChar, List.mem_map] at hc'
  obtain ⟨y, hy, rfl⟩ := hc'
  obtain ⟨x, _, rfl⟩ := hy
  constructor
  · split_ifs with h1 h2 <;> simp_all
  · split_ifs with h1 h2 <;> simp_all

/-! ## Claim theorems -/

/-- C4. After all workers are joined, the run produced by `runAll` computes
its verdict with `finalVerdict` over the planned total and the accumulated
counter; `finalVerdict` yields exit status 0 with the all-succeeded message
exactly when the success counter equals the planned total, and otherwise
exit status 1 with a summary naming the success/total tally — for total 6
and success count 4 the summary states "4 out of 6". -/
theorem C4_final_verdict (totalExecutions : Nat) (finalSuccessCount : Int) :
    ((finalVerdict totalExecutions finalSuccessCount).1 = 0 ↔
      finalSuccessCount = (totalExecutions : Int)) ∧
    ((finalVerdict totalExecutions finalSuccessCount).1 = 1 ↔
      finalSuccessCount ≠ (totalExecutions : Int)) ∧
    (finalSuccessCount = (totalExecutions : Int) →
      (finalVerdict totalExecutions finalSuccessCount).2 =
        "Cmd Mode: All " ++ toString finalSuccessCount ++
          " executions completed successfully.") ∧
    (∀ units : List UnitCtx,
      (runAll units).2 = finalVerdict units.length (successTotal units : Int)) ∧
    finalVerdict 6 6 = (0, "Cmd Mode: All 6 executions completed successfully.") ∧
    finalVerdict 6 4 =
      (1, "Cmd Mode: 4 out of 6 targeted executions completed successfully. 2 failed.") := by
  refine ⟨?_, ?_, ?_, ?_, by decide, by decide⟩
  · by_cases h : finalSuccessCount = (totalExecutions : Int) <;> simp [finalVerdict, h]
  · by_cases h : finalSuccessCount = (totalExecutions : Int) <;> simp [finalVerdict, h]
  · intro h
    simp [finalVerdict, h]
  · intro units
    rfl

theorem C4_witness :
    (finalVerdict 6 4).1 = 1 ∧ (finalVerdict 6 6).1 = 0 :=
  ⟨((C4_final_verdict 6 4).2.1).mpr (by decide),
   ((C4_final_verdict 6 6).1).mpr (by decide)⟩

/-- C7. Command-mode region resolution consults exactly one tier per run:
a non-empty (after trimming) explicit `-regions` value decides the result
without consulting the ambient configuration at all — yielding the trimmed,
empty-filtered list, or a fatal error when nothing valid remains; with no
explicit value, a non-empty ambient default region is used as the sole
target; and only when the ambient probe also yields nothing (load error or
empty region) is the fixed fallback constant `eu-west-1` used. -/
theorem C7_region_fallback_chain (regionsStr : String)
    (ambient ambient' : Option String) (r : String) :
    (goTrim regionsStr ≠ "" →
      resolveRegions regionsStr ambient = resolveRegions regionsStr ambient') ∧
    (goTrim regionsStr ≠ "" → validRegionsOf (goTrim regionsStr) ≠ [] →
      resolveRegions regionsStr ambient = .ok (validRegionsOf (goTrim regionsStr))) ∧
    (goTrim regionsStr ≠ "" → validRegionsOf (goTrim regionsStr) = [] →
      resolveRegions regionsStr ambient =
        .error "Error: -regions flag provided but contained no valid region names after trimming.") ∧
    (goTrim regionsStr = "" → r ≠ "" →
      resolveRegions regionsStr (some r) = .ok [r]) ∧
    (goTrim regionsStr = "" →
      resolveRegions regionsStr none = .ok [fallbackRegion]) ∧
    (goTrim regionsStr = "" →
      resolveRegions regionsStr (some "") = .ok [fallbackRegion]) := by
  refine ⟨?_, ?_, ?_, ?_, ?_, ?_⟩
  · intro h
    simp [resolveRegions, h]
  · intro h h2
    simp [resolveRegions, h, h2]
  · intro h h2
    simp [resolveRegions, h, h2]
  · intro h hr
    simp [resolveRegions, h, hr]
  · intro h
    simp [resolveRegions, h]
  · intro h
    simp [resolveRegions, h]

theorem C7_witness :
    resolveRegions "us-east-1, eu-west-1" none = .ok ["us-east-1", "eu-west-1"] ∧
    resolveRegions "" (some "ap-south-1") = .ok ["ap-south-1"] ∧
    resolveRegions "" none = .ok ["eu-west-1"] := by
  refine ⟨?_, ?_, ?_⟩
  · exact ((C7_region_fallback_chain "us-east-1, eu-west-1" none (some "x") "x").2.1
      (by decide) (by decide)).trans (by decide)
  · exact ((C7_region_fallback_chain "" none (some "x") "ap-south-1").2.2.2.1
      (by decide) (by decide))
  · exact ((C7_region_fallback_chain "" none (some "x") "x").2.2.2.2.1 (by decide)).trans
      (by decide)

/-- C9. The role-session name sent with the `sts:AssumeRole` request is the
join (with `-`) of the session tag, a sanitised role name — in which every
`/` and every space has been replaced, so neither character survives — and
the caller's process id, truncated so that its length never exceeds 64. -/
theorem C9_session_name (sessionNameSuffix roleToAssume : String) (pid : Nat) :
    strLen (sessionName sessionNameSuffix roleToAssume pid) ≤ 64 ∧
    (sessionName sessionNameSuffix roleToAssume pid =
      (let full := sessionNameSuffix ++ "-" ++ safeRolePart roleToAssume ++ "-" ++ Nat.repr pid
       if strLen full > 64 then strTake 64 full else full)) ∧
    (∀ c ∈ (safeRolePart roleToAssume).data, c ≠ '/' ∧ c ≠ ' ') := by
  refine ⟨?_, rfl, safeRolePart_sanitized roleToAssume⟩
  unfold sessionName
  dsimp only
  split
  · exact strLen_strTake_le 64 _
  · omega

theorem C9_witness :
    strLen (sessionName "CmdExecSess" "Admin/Role A" 4242) ≤ 64 ∧
    sessionName "CmdExecSess" "Admin/Role A" 4242 = "CmdExecSess-Admin-Role_A-4242" :=
  ⟨(C9_session_name "CmdExecSess" "Admin/Role A" 4242).1, by decide⟩

/-- C10. In command-execution mode, a non-empty `-s` selector that yields no
usable pattern after comma-splitting and trimming makes the pipeline
terminate with an error (`os.Exit(1)`) before any Execution Unit is
spawned: `commandModePlan` never reaches the fan-out loop, so no
impersonation call or subprocess can run. -/
theorem C10_useless_selector_aborts (matchFn : String → String → Bool)
    (role selector : String) (processAll : Bool) (regionsStr : String)
    (ambient : Option String) (accountNames : List String)
    (hsel : selector ≠ "") (hsplit : splitSelector selector = []) :
    ∃ msg, commandModePlan matchFn role selector processAll regionsStr ambient accountNames =
      .error msg := by
  unfold commandModePlan
  split
  · exact ⟨_, rfl⟩
  · split
    · exact ⟨_, rfl⟩
    · split
      · exact ⟨_, rfl⟩
      · rename_i hrole hboth hneither
        have hpa : processAll = false := by
          by_cases hp : processAll = true
          · exact absurd ⟨by simp [hp], hsel⟩ hboth
          · simpa using hp
        rcases hreg : resolveRegions regionsStr ambient with e | regions
        · exact ⟨e, by simp [hreg]⟩
        · have hacc : selectTargetAccounts matchFn processAll selector accountNames =
              .error "Error: Selector flag -s provided no valid names/patterns." := by
            simp [selectTargetAccounts, hpa, hsplit]
          simp [hreg, hacc]

theorem C10_witness :
    ∃ msg, commandModePlan literalMatch "Admin" ", ,," false "" none ["prod-a"] =
      .error msg :=
  C10_useless_selector_aborts literalMatch "Admin" ", ,," false "" none ["prod-a"]
    (by decide) (by decide)

/-- C5 counterexample. The claim says the selector is split on whitespace
and/or commas, so that "a b" is treated as two patterns. The command-mode
splitter splits on commas only: "a b" stays a single pattern, and against a
registry containing exactly the accounts `a` and `b` the selector "a b"
matches nothing and resolution aborts instead of selecting both accounts.
(The legacy root `saws.go` splits on whitespace only via `strings.Fields`,
so there the other example "a,b" stays a single pattern — under neither
generation are both separators honoured.) -/
theorem C5_counterexample :
    splitSelector "a b" = ["a b"] ∧
    (splitSelector "a b").length = 1 ∧
    selectTargetAccounts literalMatch false "a b" ["a", "b"] =
      .error "Error: No accounts found matching selector patterns." ∧
    goFields "a,b" = ["a,b"] := by decide

/-- C5 (amended). Command-mode account resolution splits the selector on
commas — and only commas — into independent patterns, trimming surrounding
whitespace from each piece and dropping empty pieces: every resulting
pattern is non-empty and comma-free, "a,b" and " a , b " give the two
patterns `a` and `b`, while the whitespace-separated "a b" stays one
pattern. -/
theorem C5_selector_comma_split (selector : String) :
    (∀ p ∈ splitSelector selector, p ≠ "" ∧ (',' ∈ p.data → False)) ∧
    splitSelector "a,b" = ["a", "b"] ∧
    splitSelector " a , b " = ["a", "b"] ∧
    splitSelector "a b" = ["a b"] :=
  ⟨splitSelector_patterns selector, by decide, by decide, by decide⟩

theorem C5_witness :
    ("a" ∈ splitSelector "b,a") ∧ "a" ≠ "" ∧ (',' ∈ ("a" : String).data → False) := by
  have h := (C5_selector_comma_split "b,a").1 "a" (by decide)
  exact ⟨by decide, h.1, h.2⟩

/-- C2 counterexample. The claim asserts that the fan-out spawns one worker
per pair of the cross product with no pair duplicated, for every resolved
region list. The region resolver does not deduplicate: the explicit input
"eu-west-1,eu-west-1" resolves to a two-element region list, and the full
command-mode pipeline then plans the pair ("acct", "eu-west-1") twice. -/
theorem C2_counterexample :
    resolveRegions "eu-west-1,eu-west-1" none = .ok ["eu-west-1", "eu-west-1"] ∧
    commandModePlan literalMatch "Admin" "acct" false "eu-west-1,eu-west-1" none ["acct"] =
      .ok [("acct", "eu-west-1"), ("acct", "eu-west-1")] ∧
    ¬ (spawnPairs ["acct"] ["eu-west-1", "eu-west-1"]).Nodup := by decide

/-- C2 (amended). For every non-empty duplicate-free resolved account list
`A` and non-empty resolved region list `R`, the fan-out loop spawns exactly
`|A| × |R|` workers, one per element of the cross product `A × R`; when `R`
is also duplicate-free (the resolver does not deduplicate an explicit
`-regions` list, so this needs the input regions to be distinct) no pair is
duplicated and none is omitted; and the final verdict is computed only
after all spawned units have contributed their outcome. -/
theorem C2_cross_product_fanout (A R : List String)
    (hA : A ≠ []) (hR : R ≠ []) (hAnodup : A.Nodup) (hRnodup : R.Nodup) :
    (spawnPairs A R).length = A.length * R.length ∧
    (∀ a r, (a, r) ∈ spawnPairs A R ↔ a ∈ A ∧ r ∈ R) ∧
    (spawnPairs A R).Nodup ∧
    spawnPairs A R ≠ [] ∧
    (∀ mkUnit : String × String → UnitCtx,
      (runAll ((spawnPairs A R).map mkUnit)).2 =
        finalVerdict (A.length * R.length)
          (successTotal ((spawnPairs A R).map mkUnit) : Int)) := by
  rw [spawnPairs_eq_product]
  refine ⟨List.length_product A R, ?_, hAnodup.product hRnodup, ?_, ?_⟩
  · intro a r
    exact List.pair_mem_product
  · intro hnil
    rcases A with _ | ⟨a, A'⟩
    · exact hA rfl
    · rcases R with _ | ⟨r, R'⟩
      · exact hR rfl
      · have : (a, r) ∈ (a :: A') ×ˢ (r :: R') :=
          List.pair_mem_product.mpr ⟨List.mem_cons_self a A', List.mem_cons_self r R'⟩
        rw [hnil] at this
        simp at this
  · intro mkUnit
    have hlen : ((A ×ˢ R).map mkUnit).length = A.length * R.length := by
      rw [List.length_map, List.length_product]
    unfold runAll
    rw [hlen]

theorem C2_witness :
    (spawnPairs ["dev-a", "prod-a"] ["eu-west-1"]).length = 2 * 1 ∧
    (spawnPairs ["dev-a", "prod-a"] ["eu-west-1"]).Nodup :=
  ⟨(C2_cross_product_fanout ["dev-a", "prod-a"] ["eu-west-1"]
      (by decide) (by decide) (by decide) (by decide)).1,
   (C2_cross_product_fanout ["dev-a", "prod-a"] ["eu-west-1"]
      (by decide) (by decide) (by decide) (by decide)).2.2.1⟩

/-- C1. Every Execution Unit yields exactly one recorded outcome: the
worker `processAccountRegion` is a total function of the unit's own inputs,
so a list of units produces exactly one result per unit, the i-th result
depending only on the i-th unit (one unit's failure cannot affect a
sibling); and a unit whose `AssumeRole` call fails still produces a
recorded failure outcome — the logged assume-failure record with the
unit's account, region and role — with a zero contribution to the success
counter, rather than being dropped silently. -/
theorem C1_one_result_per_unit (units : List UnitCtx) :
    (units.map processAccountRegion).length = units.length ∧
    (∀ i (h : i < units.length),
      (units.map processAccountRegion).get ⟨i, by simpa using h⟩ =
        processAccountRegion (units.get ⟨i, h⟩)) ∧
    (∀ u ∈ units, ∀ accountID errMsg,
      u.lookup = some accountID → u.assume = .error errMsg →
      processAccountRegion u =
        (.assumeFailed u.accountName u.region u.roleToAssume errMsg, 0)) := by
  refine ⟨List.length_map units processAccountRegion, ?_, ?_⟩
  · intro i h
    simp
  · intro u _ accountID errMsg hl ha
    simp [processAccountRegion, hl, ha]

/-- A unit whose impersonation call fails (concrete instance). -/
def failingUnit : UnitCtx :=
  { accountName := "prod-a", region := "eu-west-1", roleToAssume := "Admin",
    commandToRun := "aws s3 ls", lookup := some "111111111111",
    assume := .error "AccessDenied", originalEnv := ["HOME=/root"],
    run := .ok, stdoutCaptured := "", stderrCaptured := "", durationStr := "0s" }

/-- A sibling unit whose subprocess succeeds (concrete instance). -/
def okUnit : UnitCtx :=
  { accountName := "prod-b", region := "eu-west-1", roleToAssume := "Admin",
    commandToRun := "aws s3 ls", lookup := some "222222222222",
    assume := .ok ⟨"AK", "SK", "ST"⟩, originalEnv := ["HOME=/root"],
    run := .ok, stdoutCaptured := "bucket", stderrCaptured := "", durationStr := "1s" }

theorem C1_witness :
    processAccountRegion failingUnit =
      (.assumeFailed "prod-a" "eu-west-1" "Admin" "AccessDenied", 0) ∧
    ([failingUnit, okUnit].map processAccountRegion).length = 2 ∧
    (processAccountRegion okUnit).2 = 1 := by
  refine ⟨?_, (C1_one_result_per_unit [failingUnit, okUnit]).1, by decide⟩
  exact (C1_one_result_per_unit [failingUnit, okUnit]).2.2 failingUnit
    (List.mem_cons_self _ _) "111111111111" "AccessDenied" rfl rfl

/-- C8. A unit that reaches subprocess execution runs the caller's command
through the shell interpreter (`bash -c <command>`), with stdout and stderr
captured into two separate buffers (the two distinct captured fields of the
unit context, rendered only after the run finishes — nothing is streamed);
the printed block opens with a header naming account, region, status, exit
code and duration, contains a `[STDOUT]` section exactly when the trimmed
captured stdout is non-empty, contains a stderr section exactly when the
trimmed captured stderr is non-empty, and that section's label is the
special `[STDERR (Exit Code 0)]` precisely when the unit exited 0. -/
theorem C8_shell_execution_and_result_block (u : UnitCtx) (accountID : String)
    (creds : Creds) (hl : u.lookup = some accountID) (ha : u.assume = .ok creds) :
    (processAccountRegion u).1 =
      .executed u.accountName u.region (statusOf u.run) (exitCodeOf u.run)
        ("bash", ["-c", u.commandToRun])
        (buildEnv u.originalEnv creds u.region)
        (renderResultBlock u.accountName u.region (statusOf u.run) (exitCodeOf u.run)
          u.durationStr u.stdoutCaptured u.stderrCaptured) ∧
    (∀ account region status dur (exitCode : Int) (out err : String),
      ((renderResultBlock account region status exitCode dur out err).head? =
        some (resultHeader account region status exitCode dur)) ∧
      (goTrim out ≠ "" →
        "[STDOUT]" ∈ renderResultBlock account region status exitCode dur out err ∧
        goTrim out ∈ renderResultBlock account region status exitCode dur out err) ∧
      (goTrim out = "" →
        renderResultBlock account region status exitCode dur out err =
          [resultHeader account region status exitCode dur]
          ++ (if goTrim err ≠ "" then [stderrLabel exitCode, goTrim err] else [])
          ++ ["--- End Result ---"]) ∧
      (goTrim err ≠ "" →
        stderrLabel exitCode ∈ renderResultBlock account region status exitCode dur out err ∧
        goTrim err ∈ renderResultBlock account region status exitCode dur out err) ∧
      (goTrim err = "" →
        renderResultBlock account region status exitCode dur out err =
          [resultHeader account region status exitCode dur]
          ++ (if goTrim out ≠ "" then ["[STDOUT]", goTrim out] else [])
          ++ ["--- End Result ---"])) ∧
    (∀ exitCode : Int,
      (stderrLabel exitCode = "[STDERR (Exit Code 0)]" ↔ exitCode = 0) ∧
      (stderrLabel exitCode = "[STDERR]" ↔ exitCode ≠ 0)) ∧
    (statusOf u.run = "SUCCESS" ↔ u.run = .ok) := by
  refine ⟨by simp [processAccountRegion, hl, ha, shellInvocation], ?_, ?_, ?_⟩
  · intro account region status dur exitCode out err
    refine ⟨by simp [renderResultBlock], ?_, ?_, ?_, ?_⟩
    · intro h
      constructor <;> simp [renderResultBlock, h]
    · intro h
      simp [renderResultBlock, h]
    · intro h
      constructor <;> simp [renderResultBlock, h]
    · intro h
      simp [renderResultBlock, h]
  · intro exitCode
    by_cases h : exitCode = 0 <;> simp [stderrLabel, h]
  · cases hr : u.run <;> simp [statusOf]

theorem C8_witness :
    (processAccountRegion okUnit).1 =
      .executed "prod-b" "eu-west-1" "SUCCESS" 0
        ("bash", ["-c", "aws s3 ls"])
        (buildEnv ["HOME=/root"] ⟨"AK", "SK", "ST"⟩ "eu-west-1")
        (renderResultBlock "prod-b" "eu-west-1" "SUCCESS" 0 "1s" "bucket" "") ∧
    renderResultBlock "prod-b" "eu-west-1" "SUCCESS" 0 "1s" "bucket" "" =
      ["--- Result (Account: prod-b, Region: eu-west-1, Status: SUCCESS, Exit Code: 0, Duration: 1s) ---",
       "[STDOUT]", "bucket", "--- End Result ---"] :=
  ⟨(C8_shell_execution_and_result_block okUnit "222222222222" ⟨"AK", "SK", "ST"⟩ rfl rfl).1,
   by decide⟩

/-- C6. Selector resolution is canonical: permuting the pattern list (for
example resolving "b,a" instead of "a,b") leaves the resolved account list
unchanged; an account appears in the result exactly once — the result has
no duplicates, and membership holds precisely for registry accounts matched
by at least one pattern — and the result is sorted lexicographically
(`strLeData` is the lexicographic order on the character sequences). -/
theorem C6_selector_resolution_canonical (matchFn : String → String → Bool)
    (patterns₁ patterns₂ accountNames : List String)
    (hperm : patterns₁.Perm patterns₂) :
    resolveAccounts matchFn patterns₁ accountNames =
      resolveAccounts matchFn patterns₂ accountNames ∧
    (resolveAccounts matchFn patterns₁ accountNames).Nodup ∧
    List.Sorted strLeData (resolveAccounts matchFn patterns₁ accountNames) ∧
    (∀ acc, acc ∈ resolveAccounts matchFn patterns₁ accountNames ↔
      (acc ∈ accountNames ∧ ∃ p ∈ patterns₁, matchFn p acc = true)) ∧
    (∀ registry : List String,
      resolveAccounts matchFn (splitSelector "b,a") registry =
        resolveAccounts matchFn (splitSelector "a,b") registry) := by
  refine ⟨resolveAccounts_perm matchFn hperm accountNames, ?_, ?_, ?_, ?_⟩
  · unfold resolveAccounts sortStrings
    exact (List.perm_insertionSort strLeData _).nodup_iff.mpr (List.nodup_dedup _)
  · exact List.sorted_insertionSort strLeData _
  · intro acc
    unfold resolveAccounts sortStrings
    rw [(List.perm_insertionSort strLeData _).mem_iff, List.mem_dedup, List.mem_filter]
    simp [matchesAny, List.any_eq_true]
  · intro registry
    exact resolveAccounts_perm matchFn
      (by decide : (splitSelector "b,a").Perm (splitSelector "a,b")) registry

theorem C6_witness :
    resolveAccounts literalMatch ["b", "a"] ["a", "b", "c"] =
      resolveAccounts literalMatch ["a", "b"] ["a", "b", "c"] ∧
    resolveAccounts literalMatch ["b", "a"] ["a", "b", "c"] = ["a", "b"] :=
  ⟨(C6_selector_resolution_canonical literalMatch ["b", "a"] ["a", "b"] ["a", "b", "c"]
      (by decide)).1, by decide⟩

/-- The nine environment-variable prefixes stripped by the worker's
environment filter. -/
def envVarList : List String :=
  [ "AWS_PROFILE=", "AWS_ACCESS_KEY_ID=", "AWS_SECRET_ACCESS_KEY=",
    "AWS_SESSION_TOKEN=", "AWS_SECURITY_TOKEN=", "AWS_REGION=",
    "AWS_DEFAULT_REGION=", "AWS_CONFIG_FILE=", "AWS_SHARED_CREDENTIALS_FILE=" ]

/-- No two distinct stripped variable names are prefixes of one another, so
an entry for one variable never tests positive for another's prefix. -/
lemma distinct_env_vars_no_prefix :
    ∀ p ∈ envVarList, ∀ q ∈ envVarList, p ≠ q →
      ∀ v, goHasPrefix (p ++ v) q = false := by
  intro p hp q hq hpq v
  have h1 : q.data.isPrefixOf p.data = false := by
    fin_cases hp <;> fin_cases hq <;> first | (exact absurd rfl hpq) | decide
  have h2 : p.data.isPrefixOf q.data = false := by
    fin_cases hp <;> fin_cases hq <;> first | (exact absurd rfl hpq) | decide
  exact goHasPrefix_append_of_ne p q h1 h2 v

lemma countP_filter_stripped (originalEnv : List String) (q : String)
    (hq : q ∈ envVarList) :
    (originalEnv.filter keepEnvVar).countP (fun e => goHasPrefix e q) = 0 := by
  apply List.countP_eq_zero.mpr
  intro a ha
  obtain ⟨h1, h2, h3, h4, h5, h6, h7, h8, h9⟩ :=
    (keepEnvVar_eq_true_iff a).mp (List.of_mem_filter ha)
  fin_cases hq <;> simp [h1, h2, h3, h4, h5, h6, h7, h8, h9]

lemma injected_countP_accessKey (creds : Creds) (region : String) :
    (injectedEnv creds region).countP (fun e => goHasPrefix e "AWS_ACCESS_KEY_ID=") = 1 := by
  have hd := distinct_env_vars_no_prefix
  simp [injectedEnv, List.countP_cons, goHasPrefix_append_self,
    hd "AWS_SECRET_ACCESS_KEY=" (by decide) "AWS_ACCESS_KEY_ID=" (by decide) (by decide),
    hd "AWS_SESSION_TOKEN=" (by decide) "AWS_ACCESS_KEY_ID=" (by decide) (by decide),
    hd "AWS_REGION=" (by decide) "AWS_ACCESS_KEY_ID=" (by decide) (by decide),
    hd "AWS_DEFAULT_REGION=" (by decide) "AWS_ACCESS_KEY_ID=" (by decide) (by decide)]

lemma injected_countP_secretKey (creds : Creds) (region : String) :
    (injectedEnv creds region).countP (fun e => goHasPrefix e "AWS_SECRET_ACCESS_KEY=") = 1 := by
  have hd := distinct_env_vars_no_prefix
  simp [injectedEnv, List.countP_cons, goHasPrefix_append_self,
    hd "AWS_ACCESS_KEY_ID=" (by decide) "AWS_SECRET_ACCESS_KEY=" (by decide) (by decide),
    hd "AWS_SESSION_TOKEN=" (by decide) "AWS_SECRET_ACCESS_KEY=" (by decide) (by decide),
    hd "AWS_REGION=" (by decide) "AWS_SECRET_ACCESS_KEY=" (by decide) (by decide),
    hd "AWS_DEFAULT_REGION=" (by decide) "AWS_SECRET_ACCESS_KEY=" (by decide) (by decide)]

lemma injected_countP_sessionToken (creds : Creds) (region : String) :
    (injectedEnv creds region).countP (fun e => goHasPrefix e "AWS_SESSION_TOKEN=") = 1 := by
  have hd := distinct_env_vars_no_prefix
  simp [injectedEnv, List.countP_cons, goHasPrefix_append_self,
    hd "AWS_ACCESS_KEY_ID=" (by decide) "AWS_SESSION_TOKEN=" (by decide) (by decide),
    hd "AWS_SECRET_ACCESS_KEY=" (by decide) "AWS_SESSION_TOKEN=" (by decide) (by decide),
    hd "AWS_REGION=" (by decide) "AWS_SESSION_TOKEN=" (by decide) (by decide),
    hd "AWS_DEFAULT_REGION=" (by decide) "AWS_SESSION_TOKEN=" (by decide) (by decide)]

lemma injected_countP_region (creds : Creds) (region : String) :
    (injectedEnv creds region).countP (fun e => goHasPrefix e "AWS_REGION=") = 1 := by
  have hd := distinct_env_vars_no_prefix
  simp [injectedEnv, List.countP_cons, goHasPrefix_append_self,
    hd "AWS_ACCESS_KEY_ID=" (by decide) "AWS_REGION=" (by decide) (by decide),
    hd "AWS_SECRET_ACCESS_KEY=" (by decide) "AWS_REGION=" (by decide) (by decide),
    hd "AWS_SESSION_TOKEN=" (by decide) "AWS_REGION=" (by decide) (by decide),
    hd "AWS_DEFAULT_REGION=" (by decide) "AWS_REGION=" (by decide) (by decide)]

lemma injected_countP_defaultRegion (creds : Creds) (region : String) :
    (injectedEnv creds region).countP (fun e => goHasPrefix e "AWS_DEFAULT_REGION=") = 1 := by
  have hd := distinct_env_vars_no_prefix
  simp [injectedEnv, List.countP_cons, goHasPrefix_append_self,
    hd "AWS_ACCESS_KEY_ID=" (by decide) "AWS_DEFAULT_REGION=" (by decide) (by decide),
    hd "AWS_SECRET_ACCESS_KEY=" (by decide) "AWS_DEFAULT_REGION=" (by decide) (by decide),
    hd "AWS_SESSION_TOKEN=" (by decide) "AWS_DEFAULT_REGION=" (by decide) (by decide),
    hd "AWS_REGION=" (by decide) "AWS_DEFAULT_REGION=" (by decide) (by decide)]

/-- C3. For every parent process environment, the subprocess environment a
unit constructs contains exactly one entry carrying each of the access-key,
secret-key, session-token, region and default-region variable prefixes; any
entry carrying one of those prefixes is one of the unit's own five injected
entries (so no parent value for those variables survives — a parent entry
can remain only by being character-for-character the injected entry
itself); the five injected entries are all present; and no entry at all
carries the security-token, profile, config-file or
shared-credentials-file prefixes — however many such variables the parent
environment held. -/
theorem C3_subprocess_env_isolation (originalEnv : List String) (creds : Creds)
    (region : String) :
    ((buildEnv originalEnv creds region).countP
        (fun e => goHasPrefix e "AWS_ACCESS_KEY_ID=") = 1 ∧
     (buildEnv originalEnv creds region).countP
        (fun e => goHasPrefix e "AWS_SECRET_ACCESS_KEY=") = 1 ∧
     (buildEnv originalEnv creds region).countP
        (fun e => goHasPrefix e "AWS_SESSION_TOKEN=") = 1 ∧
     (buildEnv originalEnv creds region).countP
        (fun e => goHasPrefix e "AWS_REGION=") = 1 ∧
     (buildEnv originalEnv creds region).countP
        (fun e => goHasPrefix e "AWS_DEFAULT_REGION=") = 1) ∧
    (∀ e ∈ buildEnv originalEnv creds region,
      (goHasPrefix e "AWS_ACCESS_KEY_ID=" || goHasPrefix e "AWS_SECRET_ACCESS_KEY=" ||
       goHasPrefix e "AWS_SESSION_TOKEN=" || goHasPrefix e "AWS_REGION=" ||
       goHasPrefix e "AWS_DEFAULT_REGION=") = true →
      e ∈ injectedEnv creds region) ∧
    (∀ e ∈ injectedEnv creds region, e ∈ buildEnv originalEnv creds region) ∧
    (∀ e ∈ buildEnv originalEnv creds region,
      goHasPrefix e "AWS_SECURITY_TOKEN=" = false ∧
      goHasPrefix e "AWS_PROFILE=" = false ∧
      goHasPrefix e "AWS_CONFIG_FILE=" = false ∧
      goHasPrefix e "AWS_SHARED_CREDENTIALS_FILE=" = false) := by
  refine ⟨⟨?_, ?_, ?_, ?_, ?_⟩, ?_, ?_, ?_⟩
  · rw [buildEnv, List.countP_append, countP_filter_stripped originalEnv _ (by decide),
      injected_countP_accessKey]
  · rw [buildEnv, List.countP_append, countP_filter_stripped originalEnv _ (by decide),
      injected_countP_secretKey]
  · rw [buildEnv, List.countP_append, countP_filter_stripped originalEnv _ (by decide),
      injected_countP_sessionToken]
  · rw [buildEnv, List.countP_append, countP_filter_stripped originalEnv _ (by decide),
      injected_countP_region]
  · rw [buildEnv, List.countP_append, countP_filter_stripped originalEnv _ (by decide),
      injected_countP_defaultRegion]
  · intro e he hor
    rcases List.mem_append.mp he with hf | hi
    · obtain ⟨_, h2, h3, h4, _, h6, h7, _, _⟩ :=
        (keepEnvVar_eq_true_iff e).mp (List.of_mem_filter hf)
      simp [h2, h3, h4, h6, h7] at hor
    · exact hi
  · intro e hi
    exact List.mem_append.mpr (Or.inr hi)
  · intro e he
    rcases List.mem_append.mp he with hf | hi
    · obtain ⟨h1, _, _, _, h5, _, _, h8, h9⟩ :=
        (keepEnvVar_eq_true_iff e).mp (List.of_mem_filter hf)
      exact ⟨h5, h1, h8, h9⟩
    · have hd := distinct_env_vars_no_prefix
      simp only [injectedEnv, List.mem_cons, List.not_mem_nil, or_false] at hi
      rcases hi with rfl | rfl | rfl | rfl | rfl <;>
        refine ⟨?_, ?_, ?_, ?_⟩ <;>
          exact hd _ (by decide) _ (by decide) (by decide) _

theorem C3_witness :
    (buildEnv
        ["AWS_ACCESS_KEY_ID=OLD1", "AWS_ACCESS_KEY_ID=OLD2", "HOME=/root",
         "AWS_SECURITY_TOKEN=zz", "AWS_PROFILE=dev", "AWS_DEFAULT_REGION=us-east-1"]
        ⟨"AK", "SK", "ST"⟩ "eu-west-1").countP
      (fun e => goHasPrefix e "AWS_ACCESS_KEY_ID=") = 1 ∧
    buildEnv
        ["AWS_ACCESS_KEY_ID=OLD1", "AWS_ACCESS_KEY_ID=OLD2", "HOME=/root",
         "AWS_SECURITY_TOKEN=zz", "AWS_PROFILE=dev", "AWS_DEFAULT_REGION=us-east-1"]
        ⟨"AK", "SK", "ST"⟩ "eu-west-1" =
      ["HOME=/root", "AWS_ACCESS_KEY_ID=AK", "AWS_SECRET_ACCESS_KEY=SK",
       "AWS_SESSION_TOKEN=ST", "AWS_REGION=eu-west-1", "AWS_DEFAULT_REGION=eu-west-1"] :=
  ⟨(C3_subprocess_env_isolation
      ["AWS_ACCESS_KEY_ID=OLD1", "AWS_ACCESS_KEY_ID=OLD2", "HOME=/root",
       "AWS_SECURITY_TOKEN=zz", "AWS_PROFILE=dev", "AWS_DEFAULT_REGION=us-east-1"]
      ⟨"AK", "SK", "ST"⟩ "eu-west-1").1.1, by decide⟩

end Saws
